import Mathlib

/-!
Verification of the Yukina blog's RSS feed mapper (`src/pages/rss.xml.ts`)
against its natural-language specification.

The mapper is the only executable logic in the repository: it reads the
ordered `posts` content collection and produces a syndication feed document.
We embed the post records, the site configuration literals, and the `GET`
handler's transformation as Lean definitions, and prove the specified
properties about them.

Modelling conventions for the TypeScript/JavaScript source:
- a possibly-absent (undefined) field is `Option _`;
- the JavaScript truthiness test `post.data.tags ? A : B` is `match` on
  the option: `undefined` is falsy, while a present array — even an empty
  one — is truthy;
- the spread `[post.data.category, ...post.data.tags]` places the (possibly
  undefined) category value in front of the tag strings, so the resulting
  array is a list of possibly-undefined values: `Option String`;
- dates are carried opaquely as strings (the mapper never inspects them).
-/

namespace Yukina

/-- Front-matter data of a post record, as declared in the Markdown posts'
front matter (`title`, `published`, `description`, `tags`, `category`,
`author`, `draft`, `cover`). `category`, `tags`, `author`, `draft` and
`cover` may be absent on a given record. -/
structure PostData where
  title : String
  published : String
  description : String
  category : Option String
  tags : Option (List String)
  author : Option String
  draft : Option Bool
  cover : Option String
  deriving DecidableEq, Repr

/-- A post record of the `posts` content collection: a stable `id` (slug)
plus the front-matter `data`. -/
structure Post where
  id : String
  data : PostData
  deriving DecidableEq, Repr

/-- One feed entry, as built by the object literal inside `posts.map` in
`src/pages/rss.xml.ts`. The literal has seven fields: `title`, `pubDate`,
`link`, `description`, `category`, `author`, `categories`. -/
structure FeedItem where
  title : String
  pubDate : String
  link : String
  description : String
  category : Option String
  author : Option String
  categories : List (Option String)
  deriving DecidableEq, Repr

/-- The feed document returned by `rss({...})`: top-level `title`,
`description`, `site` and the list of `items`. -/
structure Feed where
  title : String
  description : String
  site : String
  items : List FeedItem
  deriving DecidableEq, Repr

/-- The per-post mapping function: the body of `posts.map((post) => ({...}))`
in `src/pages/rss.xml.ts`.

`categories` embeds
`post.data.tags ? [post.data.category, ...post.data.tags] : [post.data.category]`:
a present `tags` array (even empty) is truthy, so the category is prepended
to the tag strings; an absent `tags` is falsy, giving the singleton. -/
def rssItem (post : Post) : FeedItem :=
  { title := post.data.title
    pubDate := post.data.published
    link := "/posts/" ++ post.id
    description := post.data.description
    category := post.data.category
    author := post.data.author
    categories :=
      match post.data.tags with
      | some tags => post.data.category :: tags.map some
      | none => [post.data.category] }

/-- The `GET` handler of `src/pages/rss.xml.ts`, with the external
content-collection lookup made explicit: the framework supplies the request
context's `site` and the ordered list of `posts` records, and the handler
returns `rss({ title: "a", description: "a", site: context.site,
items: posts.map(...) })`. -/
def GET (site : String) (posts : List Post) : Feed :=
  { title := "a"
    description := "a"
    site := site
    items := posts.map rssItem }

/-- The site-configuration fields of `yukina.config.ts` relevant to the
feed (lines 5–11 of the source): the configured title, subtitle, brand
title, description and site URL. -/
structure Configuration where
  title : String
  subTitle : String
  brandTitle : String
  description : String
  site : String
  deriving DecidableEq, Repr

/-- The concrete `YukinaConfig` constant from `yukina.config.ts`. -/
def YukinaConfig : Configuration :=
  { title := "Hamim's Blog"
    subTitle := "Thoughts, Code & Creativity"
    brandTitle := "Home"
    description := "Personal blog by Hamim – covering code, backend architecture, frontend ideas, and tech insights."
    site := "https://seracoder.com" }

/-- Two post records that agree on every field except possibly `draft` and
`cover`. -/
def sameExceptDraftCover (a b : Post) : Prop :=
  a.id = b.id ∧
  a.data.title = b.data.title ∧
  a.data.published = b.data.published ∧
  a.data.description = b.data.description ∧
  a.data.category = b.data.category ∧
  a.data.tags = b.data.tags ∧
  a.data.author = b.data.author

/-! Concrete sample records used by witnesses and counterexamples. -/

/-- A post with a category and two tags, mirroring the spec's example
scenario record `a`. -/
def samplePost : Post :=
  { id := "a"
    data := { title := "Post A"
              published := "2024-01-01"
              description := "Desc A"
              category := some "Python"
              tags := some ["x", "y"]
              author := some "Md hamim"
              draft := some false
              cover := none } }

/-- A post whose `tags` field is absent, mirroring the spec's example
scenario record `b`. -/
def noTagsPost : Post :=
  { id := "b"
    data := { title := "Post B"
              published := "2024-02-01"
              description := "Desc B"
              category := some "JS"
              tags := none
              author := some "Md hamim"
              draft := none
              cover := none } }

/-- A variant of `noTagsPost` whose `author` field is absent; it agrees with
`noTagsPost` on every other field. -/
def noAuthorPost : Post :=
  { id := "b"
    data := { title := "Post B"
              published := "2024-02-01"
              description := "Desc B"
              category := some "JS"
              tags := none
              author := none
              draft := none
              cover := none } }

/-- A schema-violating post: its `category` field is missing (and so are
`tags` and `author`). -/
def malformedPost : Post :=
  { id := "c"
    data := { title := "Post C"
              published := "2024-03-01"
              description := "Desc C"
              category := none
              tags := none
              author := none
              draft := none
              cover := none } }

/-- A draft variant of `samplePost`: same record with `draft := some true`
and a different `cover`. -/
def draftPost : Post :=
  { id := "a"
    data := { title := "Post A"
              published := "2024-01-01"
              description := "Desc A"
              category := some "Python"
              tags := some ["x", "y"]
              author := some "Md hamim"
              draft := some true
              cover := some "/covers/a.webp" } }

/-- Two feed items that agree on all seven projections are equal. -/
theorem feedItem_eq_of_fields {a b : FeedItem} (h1 : a.title = b.title)
    (h2 : a.pubDate = b.pubDate) (h3 : a.link = b.link)
    (h4 : a.description = b.description) (h5 : a.category = b.category)
    (h6 : a.author = b.author) (h7 : a.categories = b.categories) : a = b := by
  cases a
  cases b
  simp_all

/-- Posts related by `sameExceptDraftCover` map to the same feed item. -/
theorem rssItem_congr {a b : Post} (h : sameExceptDraftCover a b) :
    rssItem a = rssItem b := by
  obtain ⟨h1, h2, h3, h4, h5, h6, h7⟩ := h
  simp [rssItem, h1, h2, h3, h4, h5, h6, h7]

/-- Claim C1: for every post record whose `tags` field is present and
non-empty, the produced entry's `categories` is the record's `category`
prepended to its tags, in order. -/
theorem categories_with_tags (p : Post) (tags : List String)
    (htags : p.data.tags = some tags) (_hne : tags ≠ []) :
    (rssItem p).categories = p.data.category :: tags.map some := by
  simp [rssItem, htags]

/-- Witness for claim C1 on the concrete `samplePost`. -/
theorem categories_with_tags_witness :
    samplePost.data.tags = some ["x", "y"] ∧ (["x", "y"] : List String) ≠ [] ∧
    (rssItem samplePost).categories = [some "Python", some "x", some "y"] :=
  ⟨rfl, by decide, by
    have h := categories_with_tags samplePost ["x", "y"] rfl (by decide)
    simpa [samplePost] using h⟩

/-- Claim C2: for every post record whose `tags` field is absent, or present
but empty, the produced entry's `categories` is the singleton holding the
record's `category`. -/
theorem categories_without_tags (p : Post)
    (h : p.data.tags = none ∨ p.data.tags = some []) :
    (rssItem p).categories = [p.data.category] := by
  rcases h with h | h <;> simp [rssItem, h]

/-- Witness for claim C2 on the concrete `noTagsPost`. -/
theorem categories_without_tags_witness :
    noTagsPost.data.tags = none ∧
    (rssItem noTagsPost).categories = [some "JS"] :=
  ⟨rfl, by
    have h := categories_without_tags noTagsPost (Or.inl rfl)
    simpa [noTagsPost] using h⟩

/-- Counterexample to claim C3: the two concrete records `noTagsPost` and
`noAuthorPost` yield feed entries that agree on all six fields the claim
lists (`title`, `pubDate`, `link`, `description`, `category`, `categories`)
yet are distinct entries — the object literal also carries an `author`
field. -/
theorem author_distinguishes_entries :
    (rssItem noTagsPost).title = (rssItem noAuthorPost).title ∧
    (rssItem noTagsPost).pubDate = (rssItem noAuthorPost).pubDate ∧
    (rssItem noTagsPost).link = (rssItem noAuthorPost).link ∧
    (rssItem noTagsPost).description = (rssItem noAuthorPost).description ∧
    (rssItem noTagsPost).category = (rssItem noAuthorPost).category ∧
    (rssItem noTagsPost).categories = (rssItem noAuthorPost).categories ∧
    rssItem noTagsPost ≠ rssItem noAuthorPost := by
  refine ⟨rfl, rfl, rfl, rfl, rfl, rfl, ?_⟩
  decide

/-- Claim C3 (amended): every feed entry consists of exactly the seven
fields `title`, `pubDate`, `link`, `description`, `category`, `author` and
`categories` — two entries are equal exactly when those seven projections
agree — with `author` taken from the post's `author` field. -/
theorem rssItem_seven_fields (p q : Post) :
    (rssItem p = rssItem q ↔
      ((rssItem p).title = (rssItem q).title ∧
       (rssItem p).pubDate = (rssItem q).pubDate ∧
       (rssItem p).link = (rssItem q).link ∧
       (rssItem p).description = (rssItem q).description ∧
       (rssItem p).category = (rssItem q).category ∧
       (rssItem p).author = (rssItem q).author ∧
       (rssItem p).categories = (rssItem q).categories)) ∧
    (rssItem p).author = p.data.author := by
  refine ⟨⟨fun h => by rw [h]; exact ⟨rfl, rfl, rfl, rfl, rfl, rfl, rfl⟩, ?_⟩, rfl⟩
  rintro ⟨h1, h2, h3, h4, h5, h6, h7⟩
  exact feedItem_eq_of_fields h1 h2 h3 h4 h5 h6 h7

/-- Counterexample to claim C4: the feed's top-level `site` field is not a
fixed placeholder literal — two invocations whose request contexts carry
different `site` values produce feeds with different `site` fields. -/
theorem site_varies_with_context :
    (GET "https://seracoder.com" []).site ≠ (GET "https://example.org" []).site := by
  decide

/-- Claim C4 (amended): the feed's top-level `title` and `description` are
the fixed placeholder literal "a", which differs from the configured site
title and description in `yukina.config.ts`; the `site` field is the value
supplied by the request context, not a literal. -/
theorem feed_metadata_placeholders (site : String) (posts : List Post) :
    (GET site posts).title = "a" ∧
    (GET site posts).description = "a" ∧
    (GET site posts).site = site ∧
    (GET site posts).title ≠ YukinaConfig.title ∧
    (GET site posts).description ≠ YukinaConfig.description := by
  refine ⟨rfl, rfl, rfl, ?_, ?_⟩
  · show ("a" : String) ≠ YukinaConfig.title
    decide
  · show ("a" : String) ≠ YukinaConfig.description
    decide

/-- Claim C5: every feed entry's `link` is the fixed prefix "/posts/"
concatenated with the record's `id`. -/
theorem link_is_posts_path (p : Post) :
    (rssItem p).link = "/posts/" ++ p.id := rfl

/-- Claim C6: the produced feed has exactly one entry per input record —
the number of items equals the length of the input collection, for every
collection including the empty one. -/
theorem items_length_eq (site : String) (posts : List Post) :
    (GET site posts).items.length = posts.length := by
  simp [GET]

/-- Claim C7: the produced feed is order-preserving — for every index, the
entry at that index is exactly the one derived from the record at the same
index of the input collection (no re-sorting). -/
theorem items_order_preserved (site : String) (posts : List Post) (i : Nat) :
    (GET site posts).items[i]? = Option.map rssItem posts[i]? := by
  simp [GET]

/-- Claim C8: every record violating the schema by missing its `category`
is neither rejected nor defaulted: an entry is still produced for it, with
an absent `category`, and — when `tags` is also absent — `categories`
holding the absent value as its sole element; the entry count is
unchanged. -/
theorem malformed_category_propagates (site : String) (posts : List Post)
    (p : Post) (hmem : p ∈ posts) (hcat : p.data.category = none) :
    rssItem p ∈ (GET site posts).items ∧
    (rssItem p).category = none ∧
    (p.data.tags = none → (rssItem p).categories = [none]) ∧
    (GET site posts).items.length = posts.length := by
  refine ⟨List.mem_map_of_mem rssItem hmem, ?_, fun htags => ?_, by simp [GET]⟩
  · simpa [rssItem] using hcat
  · simp [rssItem, htags, hcat]

/-- Witness for claim C8 on the concrete `malformedPost`. -/
theorem malformed_category_propagates_witness :
    malformedPost ∈ [malformedPost] ∧
    malformedPost.data.category = none ∧
    (rssItem malformedPost ∈ (GET "https://seracoder.com" [malformedPost]).items ∧
     (rssItem malformedPost).category = none ∧
     (malformedPost.data.tags = none → (rssItem malformedPost).categories = [none]) ∧
     (GET "https://seracoder.com" [malformedPost]).items.length = [malformedPost].length) :=
  ⟨List.mem_singleton_self malformedPost, rfl,
   malformed_category_propagates "https://seracoder.com" [malformedPost]
     malformedPost (List.mem_singleton_self malformedPost) rfl⟩

/-- Claim C9: the mapper is deterministic — two invocations of the feed
generation on the same site context and input collection produce
structurally identical feed documents. -/
theorem GET_deterministic (site : String) (posts : List Post) :
    GET site posts = GET site posts := rfl

/-- Claim C10: the produced feed is independent of the records' `draft` and
`cover` fields — two input collections agreeing pointwise on every other
field produce identical feed documents, so drafts are included like
published posts. -/
theorem draft_cover_independent (site : String) (ps qs : List Post)
    (h : List.Forall₂ sameExceptDraftCover ps qs) :
    GET site ps = GET site qs := by
  have hmap : ps.map rssItem = qs.map rssItem := by
    induction h with
    | nil => rfl
    | cons hab _ ih => simp [List.map_cons, rssItem_congr hab, ih]
  simp [GET, hmap]

/-- Witness for claim C10: `draftPost` and `samplePost` differ only in
`draft` and `cover`, and the feeds generated from the two singleton
collections are identical. -/
theorem draft_cover_independent_witness :
    List.Forall₂ sameExceptDraftCover [draftPost] [samplePost] ∧
    GET "https://seracoder.com" [draftPost] = GET "https://seracoder.com" [samplePost] :=
  have h : List.Forall₂ sameExceptDraftCover [draftPost] [samplePost] :=
    List.Forall₂.cons ⟨rfl, rfl, rfl, rfl, rfl, rfl, rfl⟩ List.Forall₂.nil
  ⟨h, draft_cover_independent "https://seracoder.com" [draftPost] [samplePost] h⟩

end Yukina
